import Mathlib

/-!
Verification of the two example programs in this repository.

* `ExceptionDemo` embeds `src/Exception Handling/main.cpp` (Program A):
  the exception taxonomy, the `ResourceGuard` RAII class, `processData`,
  `safeOperation` and the driver `main`, with output modelled as a list of
  lines tagged by stream and exceptions as values carried beside the output.
* `PreprocessorDemo` embeds `src/Preprocessor Directives/main.cpp`
  (Program B): the macro substitutions are expanded as the C++ preprocessor
  expands them, and the `#if`/`#elif`/`#else` block is evaluated with the
  preprocessor's rules for identifiers in conditionals.
-/

namespace ExceptionDemo

/-- One line of console output, tagged with the stream it is written to
(`out` = stdout via `cout`, `err` = stderr via `cerr`). -/
inductive Line where
  | out (s : String)
  | err (s : String)
  deriving DecidableEq, Repr

/-- The exception values thrown in Program A.  `invalid_argument`,
`overflow_error` and `bad_alloc` are the standard library types used by
`processData`; `myCustomException` is the `MyCustomException` class defined
in the file.  All four derive from `std::exception` in C++. -/
inductive CppException where
  | invalid_argument (msg : String)
  | myCustomException (msg : String)
  | overflow_error (msg : String)
  | bad_alloc
  deriving DecidableEq, Repr

/-- `what()` of each exception.  The three message-carrying types return the
string they were constructed with (`MyCustomException::what` returns `msg_`);
`std::bad_alloc::what()` is implementation-defined text, modelled here as
libstdc++'s `"std::bad_alloc"`. -/
def what : CppException → String
  | .invalid_argument m => m
  | .myCustomException m => m
  | .overflow_error m => m
  | .bad_alloc => "std::bad_alloc"

/-- `catch (const invalid_argument&)` matches exactly this type here
(no subclass of it is thrown in the program). -/
def isInvalidArgument : CppException → Bool
  | .invalid_argument _ => true
  | _ => false

/-- `catch (const MyCustomException&)` matches. -/
def isMyCustomException : CppException → Bool
  | .myCustomException _ => true
  | _ => false

/-- `catch (const overflow_error&)` matches. -/
def isOverflowError : CppException → Bool
  | .overflow_error _ => true
  | _ => false

/-- `catch (const bad_alloc&)` matches. -/
def isBadAlloc : CppException → Bool
  | .bad_alloc => true
  | _ => false

/-- `catch (const exception&)` matches every exception thrown in Program A:
all four types derive from `std::exception`. -/
def isStdException : CppException → Bool := fun _ => true

/-- The result of running a block of Program A code: the lines it printed,
and the exception propagating out of it, if any. -/
abbrev Result := List Line × Option CppException

/-- `ResourceGuard`'s constructor output (line 61 of the source). -/
def acquireLine : Line := .out "Resource acquired."

/-- `ResourceGuard`'s destructor output (line 62 of the source). -/
def releaseLine : Line := .out "Resource released (simulating finally block)."

/-- The body of `processData` after the `ResourceGuard` is constructed:
the four throwing tests in source order, then the success print. -/
def processDataBody (value : Int) : Result :=
  if value < 0 then
    ([], some (.invalid_argument "Negative value is not allowed."))
  else if value = 0 then
    ([], some (.myCustomException "Zero is not permitted."))
  else if value > 100 then
    ([], some (.overflow_error "Value exceeds the allowable range."))
  else if value = 99 then
    ([], some .bad_alloc)
  else
    ([.out ("Value is valid: " ++ toString value)], none)

/-- `processData`: the local `ResourceGuard guard` prints the acquire line on
construction, its destructor prints the release line when the function exits,
whether it returns normally or an exception is propagating (C++ stack
unwinding runs the destructor before the exception leaves the function). -/
def processData (value : Int) : Result :=
  (acquireLine :: (processDataBody value).1 ++ [releaseLine],
   (processDataBody value).2)

/-- `safeOperation`: declared `noexcept`; its body is a single print and it
never throws. -/
def safeOperation : Result :=
  ([.out "This operation is guaranteed not to throw an exception."], none)

/-- A `try { call } catch` block: `handler e` returns the lines the catch
block prints when it matches `e`, or `none` when the exception does not
match and keeps propagating. -/
def tryCatch (call : Result) (handler : CppException → Option (List Line)) :
    Result :=
  match call.2 with
  | none => (call.1, none)
  | some e =>
    match handler e with
    | some lines => (call.1 ++ lines, none)
    | none => call

/-- Sequential composition: if `a` ends with a propagating exception, `b`
never runs. -/
def seqR (a b : Result) : Result :=
  match a.2 with
  | none => (a.1 ++ b.1, b.2)
  | some _ => a

/-- Block 1 of `main` (lines 92-96): `processData(-1)` guarded by
`catch (const invalid_argument& e)`. -/
def block1 : Result :=
  tryCatch (processData (-1)) fun e =>
    if isInvalidArgument e then
      some [.err ("Caught a logic error (invalid_argument): " ++ what e)]
    else none

/-- Block 2 of `main` (lines 98-102): `processData(0)` guarded by
`catch (const MyCustomException& e)`. -/
def block2 : Result :=
  tryCatch (processData 0) fun e =>
    if isMyCustomException e then
      some [.err ("Caught a custom exception: " ++ what e)]
    else none

/-- Block 3 of `main` (lines 104-108): `processData(101)` guarded by
`catch (const overflow_error& e)`. -/
def block3 : Result :=
  tryCatch (processData 101) fun e =>
    if isOverflowError e then
      some [.err ("Caught a runtime error (overflow_error): " ++ what e)]
    else none

/-- Block 4 of `main` (lines 110-114): `processData(99)` guarded by
`catch (const bad_alloc& e)`. -/
def block4 : Result :=
  tryCatch (processData 99) fun e =>
    if isBadAlloc e then
      some [.err ("Caught a memory allocation error (bad_alloc): " ++ what e)]
    else none

/-- Block 5 of `main` (lines 117-121): `processData(10)` guarded by
`catch (const exception& e)`. -/
def block5 : Result :=
  tryCatch (processData 10) fun e =>
    if isStdException e then
      some [.err ("Caught a general exception: " ++ what e)]
    else none

/-- Block 6 of `main` (lines 124-129): `processData(50); processData(999);`
in one try, guarded by the catch-all `catch (...)`. -/
def block6 : Result :=
  tryCatch (seqR (processData 50) (processData 999)) fun _ =>
    some [.err "Caught an unexpected exception."]

/-- Block 7 of `main` (lines 132-136): `safeOperation()` guarded by
`catch (...)`. -/
def block7 : Result :=
  tryCatch safeOperation fun _ =>
    some [.err "This block will never be executed as safeOperation() is noexcept."]

/-- The whole of `main` (lines 91-139): the seven guarded blocks in order. -/
def mainA : Result :=
  seqR block1 (seqR block2 (seqR block3 (seqR block4
    (seqR block5 (seqR block6 block7)))))

/-- Exit status of Program A: `main` ends with `return 0;`, so a run in which
no exception escapes `main` exits with status 0; an escaping exception would
instead reach `std::terminate` and the process would die abnormally
(no normal exit status). -/
def mainAExit : Option Nat :=
  match mainA.2 with
  | none => some 0
  | some _ => none

/-- Number of occurrences of a line in an output list. -/
def countLine (l : Line) (lines : List Line) : Nat :=
  (lines.filter (fun x => x = l)).length

/-- The stderr lines of an output list, in order. -/
def errLines (lines : List Line) : List String :=
  lines.filterMap fun
    | .err s => some s
    | .out _ => none

/-- The stdout lines of an output list, in order. -/
def outLines (lines : List Line) : List String :=
  lines.filterMap fun
    | .out s => some s
    | .err _ => none

end ExceptionDemo

namespace PreprocessorDemo

/-- `GREETING(name)`, the function-like macro of line 40, after expansion:
`("Hello, " + name + "! Welcome to the game.")`. -/
def GREETING (name : String) : String :=
  "Hello, " ++ name ++ "! Welcome to the game."

/-- `playerName` (line 42). -/
def playerName : String := "Hero"

/-- `playerHealth` (line 45). -/
def playerHealth : Int := 90

/-- `bossHealth` (line 56). -/
def bossHealth : Int := 120

/-- The value the token `MAX_HEALTH` expands to at the first health
comparison (lines 46-49): `#define MAX_HEALTH 100` of line 39 is in
effect. -/
def maxHealthAtFirstUse : Int := 100

/-- The value the token `MAX_HEALTH` expands to at the boss-health line
(line 57): line 53 `#undef`s it and line 54 redefines it to 150. -/
def maxHealthAtBossLine : Int := 150

/-- `difficulty` (line 75) is an ordinary `int` variable of `main`. -/
def difficulty : Int := 2

/-- The value of the identifier `difficulty` inside the `#if`/`#elif`
conditionals of lines 77 and 79.  `difficulty` is a C++ variable, not a
macro, so the preprocessor does not expand it; after macro expansion every
remaining identifier in a `#if` condition is replaced by `0`
(C++ [cpp.cond]). -/
def ppDifficultyToken : Int := 0

/-- The lines emitted by the `#if difficulty == 1` / `#elif difficulty == 2`
/ `#else` block of lines 77-83, with the conditions evaluated by the
preprocessor on `ppDifficultyToken`. -/
def difficultyModeLines : List String :=
  if ppDifficultyToken = 1 then ["Easy mode activated."]
  else if ppDifficultyToken = 2 then ["Normal mode activated."]
  else ["Hard mode activated."]

/-- `DEBUG` is defined at line 60, so the `#ifdef DEBUG` block is compiled
in. -/
def DEBUGdefined : Bool := true

/-- The four diagnostic lines of the `#ifdef DEBUG` block (lines 62-67). -/
def debugLines : List String :=
  if DEBUGdefined then
    ["[DEBUG] Debugging information enabled.",
     "[DEBUG] Player name: " ++ playerName,
     "[DEBUG] Player health: " ++ toString playerHealth,
     "[DEBUG] Boss health: " ++ toString bossHealth]
  else []

/-- Program B's `main` (all output goes to stdout), as a function of the
build-environment values `__FILE__`, `__DATE__` and `__TIME__`.  `__LINE__`
at line 72 is the literal `72`. -/
def mainB (file date time : String) : List String :=
  [GREETING playerName]
  ++ (if playerHealth > maxHealthAtFirstUse then
        ["Health exceeds maximum limit!"]
      else
        ["Your current health is: " ++ toString playerHealth
          ++ " out of " ++ toString maxHealthAtFirstUse])
  ++ ["Boss health: " ++ toString bossHealth
        ++ " out of " ++ toString maxHealthAtBossLine]
  ++ debugLines
  ++ ["File: " ++ file,
      "Compiled on: " ++ date ++ " at " ++ time,
      "Current line number: " ++ toString (72 : Nat)]
  ++ difficultyModeLines

end PreprocessorDemo

namespace StrUtil

/-- `leadChars pat s`: `pat` is an initial segment of `s`. -/
def leadChars : List Char → List Char → Bool
  | [], _ => true
  | _ :: _, [] => false
  | a :: as, b :: bs => a = b && leadChars as bs

/-- `occursChars pat s`: `pat` occurs contiguously somewhere in `s`. -/
def occursChars (pat : List Char) : List Char → Bool
  | [] => leadChars pat []
  | b :: bs => leadChars pat (b :: bs) || occursChars pat bs

/-- `strOccurs pat s`: the string `pat` occurs contiguously in `s`. -/
def strOccurs (pat s : String) : Bool :=
  occursChars pat.data s.data

end StrUtil

namespace ExceptionDemo

/-- The text of a line, whichever stream it went to. -/
def lineText : Line → String
  | .out s => s
  | .err s => s

lemma valid_ne_acquire (value : Int) :
    ("Value is valid: " ++ toString value) ≠ "Resource acquired." := by
  intro h
  have h2 := congrArg String.data h
  rw [String.data_append] at h2
  simp at h2

lemma valid_ne_release (value : Int) :
    ("Value is valid: " ++ toString value)
      ≠ "Resource released (simulating finally block)." := by
  intro h
  have h2 := congrArg String.data h
  rw [String.data_append] at h2
  simp at h2

end ExceptionDemo

namespace ExceptionDemo

/-- C1: for every integer `value`, `processData` realises exactly the
five-way priority classification, first match wins: a negative value fails
with `invalid_argument` and message "Negative value is not allowed.";
zero fails with the custom exception and message "Zero is not permitted.";
a value over 100 fails with `overflow_error` and message "Value exceeds the
allowable range."; 99 fails with `bad_alloc`; every other value
(1 ≤ value ≤ 100, value ≠ 99) succeeds and prints
"Value is valid: {value}". -/
theorem processData_classification (value : Int) :
    ((processData value).2 =
        some (.invalid_argument "Negative value is not allowed.")
      ↔ value < 0)
  ∧ ((processData value).2 = some (.myCustomException "Zero is not permitted.")
      ↔ value = 0)
  ∧ ((processData value).2 =
        some (.overflow_error "Value exceeds the allowable range.")
      ↔ value > 100)
  ∧ ((processData value).2 = some .bad_alloc ↔ value = 99)
  ∧ ((processData value).2 = none ↔ 1 ≤ value ∧ value ≤ 100 ∧ value ≠ 99)
  ∧ (outLines (processData value).1 =
      if (processData value).2 = none then
        ["Resource acquired.", "Value is valid: " ++ toString value,
         "Resource released (simulating finally block)."]
      else
        ["Resource acquired.",
         "Resource released (simulating finally block)."]) := by
  unfold processData processDataBody
  split_ifs with h1 h2 h3 h4 <;>
    refine ⟨?_, ?_, ?_, ?_, ?_, ?_⟩ <;>
    (try simp_all [outLines, acquireLine, releaseLine]) <;>
    omega

end ExceptionDemo

namespace ExceptionDemo

/-- C3: every call of `processData`, whatever the integer argument, prints
"Resource acquired." first, before any classification test can print or
throw, and prints "Resource released (simulating finally block)." exactly
once, as the last line of the call, on the success path and on every error
path alike; the acquire line also appears exactly once. -/
theorem processData_acquire_release (value : Int) :
    ∃ body, (processData value).1 = acquireLine :: body ++ [releaseLine]
      ∧ countLine acquireLine (processData value).1 = 1
      ∧ countLine releaseLine (processData value).1 = 1 := by
  refine ⟨(processDataBody value).1, rfl, ?_, ?_⟩ <;>
    unfold processData processDataBody <;>
    split_ifs <;>
    simp [countLine, acquireLine, releaseLine, List.filter,
          valid_ne_acquire value, valid_ne_release value]

/-- C4: a full run of Program A's driver produces exactly 7
"Resource acquired." lines and 7 "Resource released (simulating finally
block)." lines (one pair per `processData` invocation: -1, 0, 101, 99, 10,
50, 999), and exactly one stderr diagnostic line for each of the five
failing calls -1, 0, 101, 99 and 999, in call order. -/
theorem mainA_seven_pairs_five_diagnostics :
    countLine acquireLine mainA.1 = 7
  ∧ countLine releaseLine mainA.1 = 7
  ∧ errLines mainA.1 =
      ["Caught a logic error (invalid_argument): Negative value is not allowed.",
       "Caught a custom exception: Zero is not permitted.",
       "Caught a runtime error (overflow_error): Value exceeds the allowable range.",
       "Caught a memory allocation error (bad_alloc): std::bad_alloc",
       "Caught an unexpected exception."] := by
  refine ⟨?_, ?_, ?_⟩ <;> rfl

/-- C5: in Program A every exception raised by the seven classification
calls is caught by the `catch` of the very block that made the call — each
of the seven try blocks completes with no exception left propagating — so
nothing escapes `main` and the program exits with status 0. -/
theorem mainA_all_caught_exit_zero :
    block1.2 = none ∧ block2.2 = none ∧ block3.2 = none ∧ block4.2 = none
  ∧ block5.2 = none ∧ block6.2 = none ∧ block7.2 = none
  ∧ mainA.2 = none ∧ mainAExit = some 0 := by
  refine ⟨?_, ?_, ?_, ?_, ?_, ?_, ?_, ?_, ?_⟩ <;> rfl

/-- C7: `safeOperation` never raises an exception: it prints its one fixed
line and returns normally, and the guarded call of it in `main`'s last block
contributes exactly the same output with no handler line — the guard around
it is never needed. -/
theorem safeOperation_never_throws :
    safeOperation =
      ([.out "This operation is guaranteed not to throw an exception."], none)
  ∧ block7.1 = safeOperation.1
  ∧ block7.2 = none := by
  refine ⟨?_, ?_, ?_⟩ <;> rfl

/-- C9: `processData` is deterministic — its outcome (printed lines and
raised exception, if any) is a function of the argument alone, so any two
calls with equal arguments produce identical outcomes. -/
theorem processData_deterministic (v1 v2 : Int) (h : v1 = v2) :
    processData v1 = processData v2 := by
  rw [h]

/-- Witness for C9 at the concrete argument 5. -/
theorem processData_deterministic_witness :
    (5 : Int) = 5 ∧ processData 5 = processData 5 :=
  ⟨rfl, processData_deterministic 5 5 rfl⟩

/-- C10: the two handlers that the driver never enters leave no trace in a
run's output: no line of Program A's run contains
"Caught a general exception" (block 5's handler, guarding the valid call
`processData(10)`) and none contains "This block will never be executed as
safeOperation() is noexcept." (block 7's handler). -/
theorem mainA_dead_handlers_never_print :
    mainA.1.all (fun l =>
      !(StrUtil.strOccurs "Caught a general exception" (lineText l))
      && !(StrUtil.strOccurs
            "This block will never be executed as safeOperation() is noexcept."
            (lineText l))) = true := by
  rfl

end ExceptionDemo

namespace ExceptionDemo

/-- C6 counterexample: in the compound block the failing call
`processData(999)` raises `overflow_error` with message "Value exceeds the
allowable range.", but the single diagnostic the catch-all prints is the
fixed line "Caught an unexpected exception.", which neither names the
overflow kind nor contains the message payload. -/
theorem catch_all_diagnostic_lacks_kind_and_payload :
    (seqR (processData 50) (processData 999)).2 =
      some (.overflow_error "Value exceeds the allowable range.")
  ∧ errLines block6.1 = ["Caught an unexpected exception."]
  ∧ StrUtil.strOccurs "overflow" "Caught an unexpected exception." = false
  ∧ StrUtil.strOccurs "Value exceeds the allowable range."
      "Caught an unexpected exception." = false := by
  refine ⟨?_, ?_, ?_, ?_⟩ <;> rfl

/-- C6 amended: each of the four individually guarded failing calls
(-1, 0, 101, 99) produces exactly one stderr diagnostic that names its
error kind and carries the exception's `what()` text; the failing call 999
inside the catch-all block instead produces the single fixed stderr line
"Caught an unexpected exception." with neither kind nor payload; in every
case the block ends with no exception propagating and the driver continues,
reaching the final `safeOperation` line. -/
theorem mainA_error_diagnostics :
    errLines block1.1 =
      ["Caught a logic error (invalid_argument): Negative value is not allowed."]
  ∧ StrUtil.strOccurs "invalid_argument"
      "Caught a logic error (invalid_argument): Negative value is not allowed."
      = true
  ∧ StrUtil.strOccurs "Negative value is not allowed."
      "Caught a logic error (invalid_argument): Negative value is not allowed."
      = true
  ∧ errLines block2.1 = ["Caught a custom exception: Zero is not permitted."]
  ∧ StrUtil.strOccurs "custom exception"
      "Caught a custom exception: Zero is not permitted." = true
  ∧ StrUtil.strOccurs "Zero is not permitted."
      "Caught a custom exception: Zero is not permitted." = true
  ∧ errLines block3.1 =
      ["Caught a runtime error (overflow_error): Value exceeds the allowable range."]
  ∧ StrUtil.strOccurs "overflow_error"
      "Caught a runtime error (overflow_error): Value exceeds the allowable range."
      = true
  ∧ StrUtil.strOccurs "Value exceeds the allowable range."
      "Caught a runtime error (overflow_error): Value exceeds the allowable range."
      = true
  ∧ errLines block4.1 =
      ["Caught a memory allocation error (bad_alloc): std::bad_alloc"]
  ∧ StrUtil.strOccurs "bad_alloc"
      "Caught a memory allocation error (bad_alloc): std::bad_alloc" = true
  ∧ errLines block6.1 = ["Caught an unexpected exception."]
  ∧ mainA.1.getLast? =
      some (.out "This operation is guaranteed not to throw an exception.")
  := by
  refine ⟨?_, ?_, ?_, ?_, ?_, ?_, ?_, ?_, ?_, ?_, ?_, ?_, ?_⟩ <;> rfl

end ExceptionDemo

namespace PreprocessorDemo

lemma mainB_eq (file date time : String) :
    mainB file date time =
      ["Hello, Hero! Welcome to the game.",
       "Your current health is: 90 out of 100",
       "Boss health: 120 out of 150",
       "[DEBUG] Debugging information enabled.",
       "[DEBUG] Player name: Hero",
       "[DEBUG] Player health: 90",
       "[DEBUG] Boss health: 120",
       "File: " ++ file,
       "Compiled on: " ++ date ++ " at " ++ time,
       "Current line number: 72",
       "Hard mode activated."] := rfl

/-- C2: what Program B actually does at the failing configuration
`difficulty = 2`.  The `#if`/`#elif` conditions read the preprocessor value
of the identifier `difficulty`, which is 0 (it is a runtime variable, not a
macro), so the `#else` branch is the one compiled in: the block emits
"Hard mode activated.", and "Normal mode activated." appears nowhere in the
program's output, contrary to the evident intent of the
`difficulty = 2` setting. -/
theorem difficulty_block_emits_hard_mode :
    difficultyModeLines = ["Hard mode activated."]
  ∧ ∀ file date time, "Normal mode activated." ∉ mainB file date time := by
  refine ⟨rfl, ?_⟩
  intro file date time h
  rw [mainB_eq] at h
  simp only [List.mem_cons, List.not_mem_nil, or_false] at h
  rcases h with h|h|h|h|h|h|h|h|h|h|h
  case inr.inr.inr.inr.inr.inr.inr.inl =>
    have h2 := congrArg String.data h
    simp only [String.data_append] at h2
    simp at h2
  case inr.inr.inr.inr.inr.inr.inr.inr.inl =>
    have h2 := congrArg String.data h
    simp only [String.data_append] at h2
    simp at h2
  all_goals exact absurd h (by decide)

/-- C8: the greeting macro applied to "Hero" yields exactly
"Hello, Hero! Welcome to the game."; the first health comparison tests 90
against the threshold 100 in force at that point and takes the
not-exceeding branch, printing "Your current health is: 90 out of 100";
the boss-health line uses the redefined threshold 150 against 120 and
prints "Boss health: 120 out of 150". -/
theorem mainB_greeting_and_health (file date time : String) :
    GREETING playerName = "Hello, Hero! Welcome to the game."
  ∧ maxHealthAtFirstUse = 100
  ∧ ¬(playerHealth > maxHealthAtFirstUse)
  ∧ maxHealthAtBossLine = 150
  ∧ (mainB file date time).take 3 =
      ["Hello, Hero! Welcome to the game.",
       "Your current health is: 90 out of 100",
       "Boss health: 120 out of 150"] := by
  refine ⟨rfl, rfl, by decide, rfl, by rw [mainB_eq]; rfl⟩

end PreprocessorDemo
